import Mathlib

/-
Shallow embedding of the experimentation-frontend service core:
  src/app/routes.py        (get_current_user, authenticate)
  src/app/clients/litellm.py (fetch_models)
Strings are modelled as lists of characters; the external JWT codec
(the jose library, not part of this repository) is a parameter
`decode : Chars → Option Payload` of the functions that call it, where
`none` stands for any JWTError (bad signature, expired, malformed).
-/

namespace ExpFrontend

abbrev Chars := List Char

/-- Python truthiness of an optional string: None and the empty string are
falsy (`if not token:` in routes.py). -/
def truthy : Option Chars → Bool
  | none => false
  | some s => !s.isEmpty

/-- Source line 50: `token = auth_header.replace("Bearer ", "")`.
Python str.replace removes every non-overlapping occurrence of the pattern,
scanning left to right — not only a leading prefix. -/
def removeBearer : Chars → Chars
  | 'B' :: 'e' :: 'a' :: 'r' :: 'e' :: 'r' :: ' ' :: rest => removeBearer rest
  | c :: rest => c :: removeBearer rest
  | [] => []

/-- Whether the 7-character pattern of `"Bearer "` occurs anywhere in the string. -/
def containsBearer : Chars → Bool
  | 'B' :: 'e' :: 'a' :: 'r' :: 'e' :: 'r' :: ' ' :: _ => true
  | _ :: rest => containsBearer rest
  | [] => false

/-- Source line 49: `auth_header.startswith("Bearer ")`. -/
def startsBearer : Chars → Bool
  | 'B' :: 'e' :: 'a' :: 'r' :: 'e' :: 'r' :: ' ' :: _ => true
  | _ => false

/-- The character list of the literal `"Bearer "`. -/
def bearerMark : Chars := 'B' :: 'e' :: 'a' :: 'r' :: 'e' :: 'r' :: ' ' :: []

/-- Decoded JWT payload as the gate reads it: `payload.get("sub")` and
`payload.get("id")`; a missing claim is `none` (Python None). Per the data
model the subject claim is a string and the id claim an integer. -/
structure Payload where
  sub : Option Chars
  id : Option Int
deriving DecidableEq

/-- The parts of the incoming request the gate consults:
`request.cookies.get(ACCESS_TOKEN)` and `request.headers.get("Authorization")`
(`none` when the cookie or header is absent). -/
structure Request where
  cookieToken : Option Chars
  authHeader : Option Chars
deriving DecidableEq

/-- Source lines 38-55 of routes.py: the value of the local variable `token`
after the cookie lookup and the Authorization-header fallback, before the
final `if not token:` check.  The header is consulted only when the cookie
token is falsy, and contributes only when it starts with `"Bearer "`. -/
def rawToken (req : Request) : Option Chars :=
  let token := req.cookieToken
  if truthy token then token
  else
    match req.authHeader with
    | some h => if startsBearer h then some (removeBearer h) else token
    | none => token

/-- Source line 57: the final `if not token:` truthiness check; `none` means
the gate raises 401 with detail No token provided. -/
def tokenOfRequest (req : Request) : Option Chars :=
  match rawToken req with
  | some t => if t.isEmpty then none else some t
  | none => none

/-- Outcome of `get_current_user`: either the returned identity dict
`{"email": email, "id": user_id}` or a raised HTTPException (status, detail). -/
inductive AuthResult where
  | ok (email : Chars) (id : Int)
  | err (status : Nat) (detail : String)
deriving DecidableEq

/-- What the body of the try block in get_current_user (lines 61-74) does with
a token: return the identity, raise JWTError (from jwt.decode), or raise an
HTTPException from the payload check. -/
inductive TryOutcome where
  | ok (email : Chars) (id : Int)
  | jwtError
  | httpExc (status : Nat) (detail : String)
deriving DecidableEq

def detailInvalidPayload : String := "Invalid token payload"

/-- Source lines 62-74: decode the token, read `sub` and `id`, and apply the
check `if not email or not user_id:` — Python falsiness, so a missing claim,
an empty-string sub, and an id equal to 0 all fail the check. -/
def decodeAndCheck (decode : Chars → Option Payload) (tok : Chars) : TryOutcome :=
  match decode tok with
  | none => .jwtError
  | some p =>
    match p.sub, p.id with
    | some e, some i =>
      if e.isEmpty || i == 0 then .httpExc 401 detailInvalidPayload
      else .ok e i
    | _, _ => .httpExc 401 detailInvalidPayload

def detailNoToken : String := "No token provided"

def detailExpired : String := "Invalid or expired token"

def detailAuthError : String := "Authentication error"

/-- Source lines 76-81: the exception handlers of get_current_user.  There is
an `except JWTError` clause and then a blanket `except Exception` clause, but
no `except HTTPException: raise` clause, so the HTTPException(401,
"Invalid token payload") raised inside the try body is itself caught by the
blanket clause and replaced by HTTPException(401, "Authentication error"). -/
def handleTry : TryOutcome → AuthResult
  | .ok e i => .ok e i
  | .jwtError => .err 401 detailExpired
  | .httpExc _ _ => .err 401 detailAuthError

/-- Source lines 34-81: the full credential verification gate
`get_current_user`, parameterised by the JWT codec. -/
def get_current_user (decode : Chars → Option Payload) (req : Request) : AuthResult :=
  match tokenOfRequest req with
  | none => .err 401 detailNoToken
  | some tok => handleTry (decodeAndCheck decode tok)

/-- Outcome of the POST /auth handler: either the RedirectResponse (status,
location) carrying the session cookie whose value is the token, or a raised
HTTPException.  No cookie exists on the error branch. -/
inductive IssueResult where
  | redirect (status : Nat) (location : String) (cookieValue : Chars)
  | err (status : Nat) (detail : String)
deriving DecidableEq

def rootLoc : String := "/"

def detailInvalidToken : String := "Invalid token"

def detailMismatch : String := "User ID mismatch"

/-- Source lines 84-135: the credential issuance flow `authenticate`.  It
decodes the posted token (JWTError → 401 "Invalid token"), compares
`payload.get("id")` with the posted user_id (Python `!=`, so a missing id is
a mismatch → 400 "User ID mismatch"; this HTTPException survives because here
an `except HTTPException: raise` clause precedes the blanket handler), and on
success returns RedirectResponse("/", 303) with the cookie set to the
original token string. -/
def authenticate (decode : Chars → Option Payload) (token : Chars)
    (user_id : Int) : IssueResult :=
  match decode token with
  | none => .err 401 detailInvalidToken
  | some p =>
    if p.id = some user_id then .redirect 303 rootLoc token
    else .err 400 detailMismatch

/-- JSON values, as returned by `resp.json()`. -/
inductive Json where
  | null
  | bool (b : Bool)
  | num (n : Int)
  | str (s : Chars)
  | arr (elems : List Json)
  | obj (fields : List (Chars × Json))

instance : Inhabited Json := ⟨Json.null⟩

/-- Lookup of a key in the field list of a JSON object (dict keys are unique). -/
def lookupField : List (Chars × Json) → Chars → Option Json
  | [], _ => none
  | (k, v) :: rest, key => if k = key then some v else lookupField rest key

/-- A Python exception carried as data: the type name and the message, as the
blanket handler formats them. -/
structure PyError where
  name : Chars
  msg : Chars
deriving DecidableEq

def attrErrChars : Chars := "AttributeError".toList

def attrMsgChars : Chars := "object has no attribute get".toList

/-- Python `x.get(k)` where x may be any value: on a dict, the value or None;
on anything else it raises AttributeError (as in litellm.py when a descriptor
or its model_info is not a dict). -/
def pyGet (j : Json) (k : Chars) : Except PyError Json :=
  match j with
  | .obj fs => .ok ((lookupField fs k).getD .null)
  | _ => .error ⟨attrErrChars, attrMsgChars⟩

/-- Python `x.get(k, dflt)` with a default. -/
def pyGetD (j : Json) (k : Chars) (dflt : Json) : Except PyError Json :=
  match j with
  | .obj fs => .ok ((lookupField fs k).getD dflt)
  | _ => .error ⟨attrErrChars, attrMsgChars⟩

def typeErrChars : Chars := "TypeError".toList

def iterMsgChars : Chars := "object is not iterable".toList

/-- Python iteration `for m in models`: a list yields its elements, a dict its
keys (as strings), a string its characters (as 1-character strings); other
values raise TypeError. -/
def pyIter (j : Json) : Except PyError (List Json) :=
  match j with
  | .arr ms => .ok ms
  | .obj fs => .ok (fs.map (fun kv => .str kv.1))
  | .str s => .ok (s.map (fun c => .str (c :: [])))
  | _ => .error ⟨typeErrChars, iterMsgChars⟩

def modeKey : Chars := "mode".toList

def chatChars : Chars := "chat".toList

def infoKey : Chars := "model_info".toList

def nameKey : Chars := "model_name".toList

def dataKey : Chars := "data".toList

/-- Python `mode == "chat"` where mode is any JSON value. -/
def isChat : Json → Bool
  | .str s => s = chatChars
  | _ => false

/-- Source lines 27-31 of litellm.py: the list comprehension
`[m.get("model_name") for m in models if m.get("model_info", {}).get("mode") == "chat"]`,
evaluated element by element, left to right, the filter before the
projection; any exception aborts the whole comprehension. -/
def chatNames : List Json → Except PyError (List Json)
  | [] => .ok []
  | m :: rest => do
    let mi ← pyGetD m infoKey (.obj [])
    let mode ← pyGet mi modeKey
    if isChat mode then do
      let nm ← pyGet m nameKey
      let tl ← chatNames rest
      pure (nm :: tl)
    else chatNames rest

/-- Source lines 26-31: `models = data.get("data", [])` followed by the
comprehension over it. -/
def parseModels (body : Json) : Except PyError (List Json) := do
  let d ← pyGetD body dataKey (.arr [])
  let ms ← pyIter d
  chatNames ms

/-- The outcome of the single outbound GET, as the except clauses of
fetch_models distinguish it: a 2xx response with a parsed JSON body, a
non-2xx response (raise_for_status → httpx.HTTPStatusError, carrying the
numeric status and the body text), a transport failure (httpx.RequestError,
carrying str(exc)), or a 2xx response whose body fails JSON parsing
(resp.json() raises, caught by the blanket Exception clause). -/
inductive HttpOutcome where
  | success (body : Json)
  | httpStatus (code : Nat) (text : Chars)
  | requestError (cause : Chars)
  | jsonError (cause : Chars)

/-- Result dict of fetch_models: `{"service", "base_url", "models", "error"}`.
The models list holds the values of `m.get("model_name")`, which are JSON
values (None when the key is absent). -/
structure FetchResult where
  service : Chars
  base_url : Chars
  models : List Json
  error : Option Chars

def litellmChars : Chars := "litellm".toList

def httpPre : Chars := "HTTP ".toList

def colonSep : Chars := ": ".toList

def connPre : Chars := "Connection failed: ".toList

def jsonErrChars : Chars := "JSONDecodeError".toList

def natChars (n : Nat) : Chars := (Nat.repr n).toList

/-- Source lines 20-60 of litellm.py: fetch_models, parameterised by the
configured base URL and the outcome of the HTTP call.  Every branch returns a
result record; the non-2xx branch formats
`f"HTTP {status}: {text[:200]}"`, the transport branch
`f"Connection failed: {str(exc)}"`, and the blanket branch
`f"{type(exc).__name__}: {str(exc)}"`. -/
def fetch_models (litellm_url : Chars) (outcome : HttpOutcome) : FetchResult :=
  match outcome with
  | .success body =>
    match parseModels body with
    | .ok chat_models => ⟨litellmChars, litellm_url, chat_models, none⟩
    | .error e => ⟨litellmChars, litellm_url, [], some (e.name ++ colonSep ++ e.msg)⟩
  | .httpStatus code text =>
    ⟨litellmChars, litellm_url, [],
      some (httpPre ++ natChars code ++ colonSep ++ text.take 200)⟩
  | .requestError cause =>
    ⟨litellmChars, litellm_url, [], some (connPre ++ cause)⟩
  | .jsonError cause =>
    ⟨litellmChars, litellm_url, [], some (jsonErrChars ++ colonSep ++ cause)⟩

/-
Concrete material used by closed counterexamples and witnesses.
-/

def goodtokChars : Chars := "goodtok".toList

def badtokChars : Chars := "badtok".toList

def nosubChars : Chars := "nosub".toList

def noidChars : Chars := "noid".toList

def zerotokChars : Chars := "zerotok".toList

def emailChars : Chars := "a@b.c".toList

def abChars : Chars := "ab".toList

def abcChars : Chars := "abc".toList

def hdrCex : Chars := "Bearer aBearer b".toList

def aBearerBChars : Chars := "aBearer b".toList

def urlChars : Chars := "http://localhost:4000".toList

def aChars : Chars := "a".toList

def bChars : Chars := "b".toList

def xChars : Chars := "x".toList

def embedChars : Chars := "embedding".toList

/-- A concrete JWT codec used to instantiate the theorems: four tokens whose
signatures verify, with the stated payloads, and every other string failing
to decode. -/
def decodeEx : Chars → Option Payload := fun t =>
  if t = goodtokChars then some ⟨some emailChars, some 7⟩
  else if t = nosubChars then some ⟨none, some 7⟩
  else if t = noidChars then some ⟨some emailChars, none⟩
  else if t = zerotokChars then some ⟨some emailChars, some 0⟩
  else none

/-
Helper lemmas shared by the claim theorems.
-/

/-- Removal of the Bearer pattern commutes with a leading occurrence. -/
theorem removeBearer_mark_append (t : Chars) :
    removeBearer (bearerMark ++ t) = removeBearer t := rfl

/-- A string with no occurrence of the Bearer pattern is unchanged by the
removal. -/
theorem removeBearer_of_no_occurrence (t : Chars) (h : containsBearer t = false) :
    removeBearer t = t := by
  induction t using removeBearer.induct with
  | case1 rest ih => simp [containsBearer] at h
  | case2 c rest hne ih =>
    have h2 : containsBearer rest = false := by
      rw [containsBearer] at h
      · exact h
      · exact hne
    rw [removeBearer]
    · rw [ih h2]
    · exact hne
  | case3 => rfl

theorem startsBearer_mark_append (t : Chars) :
    startsBearer (bearerMark ++ t) = true := rfl

/-- A non-empty cookie token is the token the gate uses, whatever the header
holds. -/
theorem tokenOfRequest_cookie (c : Chars) (hc : c ≠ []) (hdr : Option Chars) :
    tokenOfRequest ⟨some c, hdr⟩ = some c := by
  match c, hc with
  | a :: as, _ => rfl

/-- C4: every value fetch_models returns carries service name litellm, and
its error field being set excludes non-empty models (the error case always
returns the empty list, so error = none or models = []). -/
theorem c4_fetch_result_invariant (url : Chars) (o : HttpOutcome) :
    (fetch_models url o).service = litellmChars
    ∧ ((fetch_models url o).error = none ∨ (fetch_models url o).models = []) := by
  cases o with
  | success body =>
    cases hp : parseModels body with
    | ok ms => simp [fetch_models, hp]
    | error e => simp [fetch_models, hp]
  | httpStatus code text => simp [fetch_models]
  | requestError cause => simp [fetch_models]
  | jsonError cause => simp [fetch_models]

/-- C6: fetch_models turns every failure of the call into a returned record
with empty models and a non-null error: a non-2xx status yields the message
HTTP code colon body-prefix, where the prefix is the first at most 200
characters of the body and the message contains the printed status code; a
transport failure yields Connection failed with the cause; a JSON parse
failure is captured by the blanket handler. -/
theorem c6_failure_taxonomy (url : Chars) (code : Nat) (text cause cause2 : Chars) :
    fetch_models url (.httpStatus code text) =
      ⟨litellmChars, url, [], some (httpPre ++ natChars code ++ colonSep ++ text.take 200)⟩
    ∧ (text.take 200).length ≤ 200
    ∧ text.take 200 <+: text
    ∧ natChars code <:+: (httpPre ++ natChars code ++ colonSep ++ text.take 200)
    ∧ fetch_models url (.requestError cause) =
      ⟨litellmChars, url, [], some (connPre ++ cause)⟩
    ∧ fetch_models url (.jsonError cause2) =
      ⟨litellmChars, url, [], some (jsonErrChars ++ colonSep ++ cause2)⟩ := by
  refine ⟨rfl, ?_, List.take_prefix _ _, ⟨httpPre, colonSep ++ text.take 200, by simp⟩,
    rfl, rfl⟩
  simp [List.length_take]

/-- C7: a request with a non-empty cookie token authenticates from the cookie
value alone; the Authorization header is never consulted, so any change to it
leaves the outcome unchanged. -/
theorem c7_cookie_precedence (decode : Chars → Option Payload) (c : Chars)
    (hc : c ≠ []) (hdr hdr2 : Option Chars) :
    tokenOfRequest ⟨some c, hdr⟩ = some c
    ∧ get_current_user decode ⟨some c, hdr⟩ = get_current_user decode ⟨some c, hdr2⟩ := by
  refine ⟨tokenOfRequest_cookie c hc hdr, ?_⟩
  unfold get_current_user
  rw [tokenOfRequest_cookie c hc hdr, tokenOfRequest_cookie c hc hdr2]

theorem c7_cookie_precedence_wit :
    tokenOfRequest ⟨some goodtokChars, some hdrCex⟩ = some goodtokChars
    ∧ get_current_user decodeEx ⟨some goodtokChars, some hdrCex⟩ =
      get_current_user decodeEx ⟨some goodtokChars, none⟩ :=
  c7_cookie_precedence decodeEx goodtokChars (by decide) (some hdrCex) none

/-- C8: the gate is a pure single-pass decision function: its outcome is
determined by the extracted token alone, so two invocations that carry the
same token (from any location, across any two requests) produce the same
result; the embedding is stateless, matching the source, which holds no
session store and mutates nothing. -/
theorem c8_gate_deterministic (decode : Chars → Option Payload) (req req2 : Request)
    (h : tokenOfRequest req = tokenOfRequest req2) :
    get_current_user decode req = get_current_user decode req2 := by
  unfold get_current_user
  rw [h]

theorem c8_gate_deterministic_wit :
    get_current_user decodeEx ⟨none, some (bearerMark ++ abChars)⟩ =
      get_current_user decodeEx ⟨some abChars, none⟩ :=
  c8_gate_deterministic decodeEx ⟨none, some (bearerMark ++ abChars)⟩ ⟨some abChars, none⟩ rfl

/-- C2 counterexample: with no cookie and the header value Bearer aBearer b,
the extracted token is ab, not aBearer b — str.replace removes every
occurrence of the pattern, so the part after the prefix is altered. -/
theorem c2_replace_all_cex :
    rawToken ⟨none, some hdrCex⟩ = some abChars ∧ abChars ≠ aBearerBChars := by
  decide

/-- C2 (amended): with no cookie, a header of the form Bearer followed by t
yields exactly the token t whenever t contains no further occurrence of the
pattern (in general the code strips every occurrence, not only the prefix),
and a header not starting with the pattern is treated as no token present, so
the gate fails with 401 No token provided. -/
theorem c2_bearer_header (decode : Chars → Option Payload) (t h : Chars)
    (hb : containsBearer t = false) (hs : startsBearer h = false) :
    rawToken ⟨none, some (bearerMark ++ t)⟩ = some t
    ∧ get_current_user decode ⟨none, some h⟩ = .err 401 detailNoToken := by
  constructor
  · have h1 : rawToken ⟨none, some (bearerMark ++ t)⟩ =
        some (removeBearer (bearerMark ++ t)) := rfl
    rw [h1, removeBearer_mark_append, removeBearer_of_no_occurrence t hb]
  · have h0 : rawToken ⟨none, some h⟩ = none := by
      simp [rawToken, truthy, hs]
    simp [get_current_user, tokenOfRequest, h0]

theorem c2_bearer_header_wit :
    rawToken ⟨none, some (bearerMark ++ abChars)⟩ = some abChars
    ∧ get_current_user decodeEx ⟨none, some abcChars⟩ = .err 401 detailNoToken :=
  c2_bearer_header decodeEx abChars abcChars (by decide) (by decide)

/-- C10: a present but empty-valued session cookie behaves as an absent
cookie: the gate falls through to the Authorization header, so the whole
outcome equals that of the cookieless request; with no header the failure is
401 No token provided, and a well-formed Bearer header still supplies its
token. -/
theorem c10_empty_cookie (decode : Chars → Option Payload) (hdr : Option Chars)
    (t : Chars) (hb : containsBearer t = false) (ht : t ≠ []) :
    get_current_user decode ⟨some [], hdr⟩ = get_current_user decode ⟨none, hdr⟩
    ∧ get_current_user decode ⟨some [], none⟩ = .err 401 detailNoToken
    ∧ tokenOfRequest ⟨some [], some (bearerMark ++ t)⟩ = some t := by
  have key : ∀ hd, tokenOfRequest (Request.mk (some []) hd) =
      tokenOfRequest (Request.mk none hd) := by
    intro hd
    cases hd with
    | none => rfl
    | some h =>
      cases hs : startsBearer h
      · simp [tokenOfRequest, rawToken, truthy, hs]
      · simp [tokenOfRequest, rawToken, truthy, hs]
  refine ⟨?_, rfl, ?_⟩
  · unfold get_current_user
    rw [key hdr]
  · rw [key (some (bearerMark ++ t))]
    have h1 : rawToken ⟨none, some (bearerMark ++ t)⟩ =
        some (removeBearer (bearerMark ++ t)) := rfl
    have h2 : removeBearer (bearerMark ++ t) = t := by
      rw [removeBearer_mark_append, removeBearer_of_no_occurrence t hb]
    have h3 : t.isEmpty = false := by
      cases t with
      | nil => exact absurd rfl ht
      | cons a as => rfl
    simp [tokenOfRequest, h1, h2, h3]

theorem c10_empty_cookie_wit :
    get_current_user decodeEx ⟨some [], some (bearerMark ++ abChars)⟩ =
      get_current_user decodeEx ⟨none, some (bearerMark ++ abChars)⟩
    ∧ get_current_user decodeEx ⟨some [], none⟩ = .err 401 detailNoToken
    ∧ tokenOfRequest ⟨some [], some (bearerMark ++ abChars)⟩ = some abChars :=
  c10_empty_cookie decodeEx (some (bearerMark ++ abChars)) abChars (by decide) (by decide)

/-- C9 counterexample: a decodable token with sub a@b.c and id 0 is rejected
by the gate, but with detail Authentication error, not the claimed Invalid
token payload. -/
theorem c9_zero_id_cex :
    get_current_user decodeEx ⟨some zerotokChars, none⟩ ≠ .err 401 detailInvalidPayload
    ∧ get_current_user decodeEx ⟨some zerotokChars, none⟩ = .err 401 detailAuthError := by
  decide

/-- C9 (amended): for every decodable token with a non-empty sub claim and an
id claim equal to 0, the gate rejects with 401 — the falsy presence check
treats id 0 as missing — though with user-facing detail Authentication error
(the HTTPException carrying Invalid token payload is swallowed by the blanket
except clause); yet issue accepts the very same token when the asserted
user_id is 0, so a cookie can be issued that the verification gate will
always reject. -/
theorem c9_zero_id_gate_vs_issue (decode : Chars → Option Payload) (tok e : Chars)
    (he : e ≠ []) (ht : tok ≠ []) (hd : decode tok = some ⟨some e, some 0⟩) :
    get_current_user decode ⟨some tok, none⟩ = .err 401 detailAuthError
    ∧ authenticate decode tok 0 = .redirect 303 rootLoc tok := by
  constructor
  · unfold get_current_user
    rw [tokenOfRequest_cookie tok ht none]
    simp [decodeAndCheck, hd, handleTry]
  · simp [authenticate, hd]

theorem c9_zero_id_gate_vs_issue_wit :
    get_current_user decodeEx ⟨some zerotokChars, none⟩ = .err 401 detailAuthError
    ∧ authenticate decodeEx zerotokChars 0 = .redirect 303 rootLoc zerotokChars :=
  c9_zero_id_gate_vs_issue decodeEx zerotokChars emailChars (by decide) (by decide)
    (by decide)

/-- C1: the success and decode-failure arms hold as claimed — a token whose
payload holds a non-empty sub and a non-zero id authenticates to exactly
those two claims, and a failing decode yields 401 Invalid or expired token —
but a payload missing either claim is rejected with detail Authentication
error, not the claimed Invalid token payload: the HTTPException(401, Invalid
token payload) raised at routes.py line 71 is caught by the blanket except
Exception clause at line 79 (get_current_user lacks the except HTTPException
re-raise that authenticate has) and replaced. -/
theorem c1_gate_verification (decode : Chars → Option Payload) (req : Request)
    (tok e : Chars) (i : Int) (hreq : tokenOfRequest req = some tok) :
    (decode tok = some ⟨some e, some i⟩ → e ≠ [] → i ≠ 0 →
      get_current_user decode req = .ok e i)
    ∧ (decode tok = none → get_current_user decode req = .err 401 detailExpired)
    ∧ (decode tok = some ⟨some e, none⟩ →
      get_current_user decode req = .err 401 detailAuthError)
    ∧ (decode tok = some ⟨none, some i⟩ →
      get_current_user decode req = .err 401 detailAuthError)
    ∧ detailAuthError ≠ detailInvalidPayload := by
  refine ⟨?_, ?_, ?_, ?_, by decide⟩
  · intro hd he hi
    unfold get_current_user
    rw [hreq]
    have hie : e.isEmpty = false := by
      cases e with
      | nil => exact absurd rfl he
      | cons a as => rfl
    have hii : (i == 0) = false := beq_eq_false_iff_ne.mpr hi
    simp [decodeAndCheck, hd, hie, hii, handleTry]
  · intro hd
    unfold get_current_user
    rw [hreq]
    simp [decodeAndCheck, hd, handleTry]
  · intro hd
    unfold get_current_user
    rw [hreq]
    simp [decodeAndCheck, hd, handleTry]
  · intro hd
    unfold get_current_user
    rw [hreq]
    simp [decodeAndCheck, hd, handleTry]

theorem c1_gate_verification_wit :
    get_current_user decodeEx ⟨some goodtokChars, none⟩ = .ok emailChars 7
    ∧ get_current_user decodeEx ⟨some badtokChars, none⟩ = .err 401 detailExpired
    ∧ get_current_user decodeEx ⟨some noidChars, none⟩ = .err 401 detailAuthError
    ∧ get_current_user decodeEx ⟨some nosubChars, none⟩ = .err 401 detailAuthError :=
  ⟨(c1_gate_verification decodeEx ⟨some goodtokChars, none⟩ goodtokChars emailChars 7
      (by decide)).1 (by decide) (by decide) (by decide),
   (c1_gate_verification decodeEx ⟨some badtokChars, none⟩ badtokChars emailChars 7
      (by decide)).2.1 (by decide),
   (c1_gate_verification decodeEx ⟨some noidChars, none⟩ noidChars emailChars 7
      (by decide)).2.2.1 (by decide),
   (c1_gate_verification decodeEx ⟨some nosubChars, none⟩ nosubChars emailChars 7
      (by decide)).2.2.2.1 (by decide)⟩

/-- C3: the issuance flow succeeds — a 303 redirect to the root carrying the
session cookie whose value is the unmodified posted token — exactly when the
token decodes and its embedded id claim equals the posted user_id; a
successful decode with any other id (a missing id included) fails with 400
User ID mismatch, a failing decode with 401 Invalid token, and no cookie
exists on either error branch. -/
theorem c3_issue_iff (decode : Chars → Option Payload) (tok : Chars) (uid : Int) :
    (authenticate decode tok uid = .redirect 303 rootLoc tok ↔
      (∃ p, decode tok = some p ∧ p.id = some uid))
    ∧ (∀ p, decode tok = some p → p.id ≠ some uid →
        authenticate decode tok uid = .err 400 detailMismatch)
    ∧ (decode tok = none → authenticate decode tok uid = .err 401 detailInvalidToken) := by
  cases hd : decode tok with
  | none => simp [authenticate, hd]
  | some p =>
    by_cases hpi : p.id = some uid
    · simp [authenticate, hd, hpi]
    · simp [authenticate, hd, hpi]

theorem c3_issue_iff_wit :
    authenticate decodeEx goodtokChars 7 = .redirect 303 rootLoc goodtokChars
    ∧ authenticate decodeEx goodtokChars 8 = .err 400 detailMismatch
    ∧ authenticate decodeEx badtokChars 7 = .err 401 detailInvalidToken :=
  ⟨(c3_issue_iff decodeEx goodtokChars 7).1.mpr
      ⟨⟨some emailChars, some 7⟩, by decide, by decide⟩,
   (c3_issue_iff decodeEx goodtokChars 8).2.1 ⟨some emailChars, some 7⟩
      (by decide) (by decide),
   (c3_issue_iff decodeEx badtokChars 7).2.2 (by decide)⟩

/-- Well-formedness of a model descriptor as the comprehension needs it: an
object whose model_info field, when present, is itself an object. -/
def goodDescr : Json → Bool
  | .obj fs =>
    match lookupField fs infoKey with
    | none => true
    | some (.obj _) => true
    | some _ => false
  | _ => false

/-- The filter of the comprehension on a well-formed descriptor: its
model_info.mode (defaulting through an empty object) equals chat. -/
def keepChat : Json → Bool
  | .obj fs =>
    match (lookupField fs infoKey).getD (.obj []) with
    | .obj gs => isChat ((lookupField gs modeKey).getD .null)
    | _ => false
  | _ => false

/-- The projection of the comprehension: the descriptor's model_name value,
JSON null when the key is absent. -/
def nameOf : Json → Json
  | .obj fs => (lookupField fs nameKey).getD .null
  | _ => .null

/-- On well-formed descriptors the comprehension is exactly filter keepChat
followed by map nameOf, and never fails. -/
theorem chatNames_wellFormed (ms : List Json) (h : ∀ m ∈ ms, goodDescr m = true) :
    chatNames ms = .ok ((ms.filter keepChat).map nameOf) := by
  induction ms with
  | nil => rfl
  | cons m rest ih =>
    have hm : goodDescr m = true := h m (List.mem_cons_self m rest)
    have hr := ih fun x hx => h x (List.mem_cons_of_mem m hx)
    cases m with
    | null => simp [goodDescr] at hm
    | bool b => simp [goodDescr] at hm
    | num n => simp [goodDescr] at hm
    | str s => simp [goodDescr] at hm
    | arr xs => simp [goodDescr] at hm
    | obj fs =>
      cases hinfo : lookupField fs infoKey with
      | none =>
        simp [chatNames, Bind.bind, Except.bind, pyGetD, pyGet, hinfo, lookupField,
          isChat, hr, List.filter, keepChat, nameOf]
      | some v =>
        cases v with
        | obj gs =>
          cases hc : isChat ((lookupField gs modeKey).getD .null) with
          | true =>
            simp [chatNames, Bind.bind, Except.bind, Pure.pure, Except.pure, pyGetD,
              pyGet, hinfo, hc, hr, List.filter, keepChat, nameOf]
          | false =>
            simp [chatNames, Bind.bind, Except.bind, pyGetD, pyGet, hinfo, hc, hr,
              List.filter, keepChat, nameOf]
        | null => simp [goodDescr, hinfo] at hm
        | bool b => simp [goodDescr, hinfo] at hm
        | num n => simp [goodDescr, hinfo] at hm
        | str s => simp [goodDescr, hinfo] at hm
        | arr xs => simp [goodDescr, hinfo] at hm

/-- A descriptor whose model_info is present but not an object. -/
def badInfoDescr : Json := .obj [(nameKey, .str aChars), (infoKey, .str xChars)]

def badBody : Json := .obj [(dataKey, .arr [badInfoDescr])]

/-- C5 counterexample: a 2xx body whose single descriptor carries a malformed
(non-object) model_info is not merely excluded — m.get on model_info yields
the string and calling get on it raises AttributeError, so the whole call
returns an error record (error non-null, models empty) instead of a clean
empty result. -/
theorem c5_malformed_info_cex :
    (fetch_models urlChars (.success badBody)).error ≠ none
    ∧ (fetch_models urlChars (.success badBody)).models = [] :=
  ⟨by decide, rfl⟩

/-- The concrete input named by the claim: one chat descriptor a and one
embedding descriptor b. -/
def descrA : Json := .obj [(nameKey, .str aChars), (infoKey, .obj [(modeKey, .str chatChars)])]

def descrB : Json := .obj [(nameKey, .str bChars), (infoKey, .obj [(modeKey, .str embedChars)])]

def exampleBody : Json := .obj [(dataKey, .arr [descrA, descrB])]

/-- C5 (amended): on a 2xx response whose data list holds only well-formed
descriptors — objects whose model_info field, when present, is itself an
object — fetch_models keeps exactly the descriptors whose nested
model_info.mode equals chat, preserving order, projects each kept descriptor
to its model_name value (JSON null when that key is absent), and reports no
error; a missing model_info or a mode other than chat excludes the
descriptor.  (A malformed descriptor — a non-object, or one whose model_info
is a non-object — instead aborts the comprehension with AttributeError and
the call returns an error record, as the counterexample shows.)  In
particular the claimed concrete input yields exactly the entry a and a null
error. -/
theorem c5_chat_filter (url : Chars) (ms : List Json)
    (h : ∀ m ∈ ms, goodDescr m = true) :
    fetch_models url (.success (.obj [(dataKey, .arr ms)])) =
      ⟨litellmChars, url, (ms.filter keepChat).map nameOf, none⟩
    ∧ fetch_models url (.success exampleBody) =
      ⟨litellmChars, url, [.str aChars], none⟩ := by
  constructor
  · have hp : parseModels (.obj [(dataKey, .arr ms)]) =
        .ok ((ms.filter keepChat).map nameOf) := by
      have h0 : parseModels (.obj [(dataKey, .arr ms)]) = chatNames ms := rfl
      rw [h0, chatNames_wellFormed ms h]
    simp [fetch_models, hp]
  · rfl

theorem c5_chat_filter_wit :
    fetch_models urlChars (.success (.obj [(dataKey, .arr [descrA, descrB])])) =
      ⟨litellmChars, urlChars, (List.filter keepChat [descrA, descrB]).map nameOf, none⟩
    ∧ fetch_models urlChars (.success exampleBody) =
      ⟨litellmChars, urlChars, [.str aChars], none⟩ :=
  c5_chat_filter urlChars [descrA, descrB] (by decide)

end ExpFrontend
